import Mathlib

/-!
Shallow embedding of the seawater thermophysical property library
(`src/seawater-mit.js`) over the real numbers, together with proofs of the
specification claims.  Each JavaScript function `SW_X(T, S, P)` becomes a
Lean definition `SW_X : ℝ → ... → Except Err ℝ`: a thrown `Error` is an
`Except.error` carrying the exact message string, and the arithmetic body
is a separate pure formula definition.  JavaScript `Math.exp`, `Math.log`,
`Math.pow(x, 0.5)` and `Math.pow(10, x)` are modelled by `Real.exp`,
`Real.log`, `Real.sqrt` and real `rpow` respectively.
-/

namespace Seawater

/-- Failure kinds observable from the JavaScript module: a thrown
`Error` with a message (`domain`), or a `ReferenceError` caused by
evaluating an identifier that is not defined anywhere in the module
(`undefinedFn` carries the identifier's name). -/
inductive Err where
  | domain (msg : String)
  | undefinedFn (fn : String)
deriving DecidableEq

/-- JavaScript default-argument idiom `x = x || d` applied to an optional
numeric argument: an absent argument or the (falsy) number `0` is replaced
by the default `d`; any other number is kept. -/
noncomputable def jsOr (x : Option ℝ) (d : ℝ) : ℝ :=
  match x with
  | none => d
  | some v => if v = 0 then d else v

/-- Arithmetic body of `SW_Psat` (source lines 883-900): pure-water vapor
pressure in Pa times the salinity correction factor. -/
noncomputable def psat_val (T S : ℝ) : ℝ :=
  let T_K := T + 273.15
  let a1 := (-5800.2206 : ℝ)
  let a2 := (1.3914993 : ℝ)
  let a3 := (-0.048640239 : ℝ)
  let a4 := (0.000041764768 : ℝ)
  let a5 := (-0.000000014452093 : ℝ)
  let a6 := (6.5459673 : ℝ)
  let Pv_w := Real.exp (a1 / T_K + a2 + a3 * T_K + a4 * T_K ^ 2 +
    a5 * T_K ^ 3 + a6 * Real.log T_K)
  let b1 := (-4.5818e-4 : ℝ)
  let b2 := (-2.0443e-6 : ℝ)
  Pv_w * Real.exp (b1 * S + b2 * S ^ 2)

/-- Vapor pressure of seawater, `SW_Psat` (source lines 874-901). -/
noncomputable def SW_Psat (T S : ℝ) : Except Err ℝ :=
  if T < 0 ∨ T > 180 then
    .error (.domain "Temperature is out of range for vapor pressure function 0 < T < 180 C")
  else if S < 0 ∨ S > 160 then
    .error (.domain "Salinity is out of range for vapor pressure function 0 < S < 160 g/kg")
  else
    .ok (psat_val T S)

/-- The reference-pressure rule stated in the specification (§4.2):
0.101325 MPa below 100 °C, otherwise the saturation pressure at `(T, S)`
converted from Pa to MPa. -/
noncomputable def refP0 (T S : ℝ) : ℝ :=
  if T < 100 then 0.101325 else psat_val T S / 1e6

/-- The inline reference-pressure resolution `T < 100 ? 0.101325 :
SW_Psat(T, S) / 1e6` as it appears (with a fallible `SW_Psat` call) in
density, enthalpy, entropy, Gibbs, specific heat, isobaric expansivity,
diffusivity, Prandtl and the chemical potentials. -/
noncomputable def resolveP0 (T S : ℝ) : Except Err ℝ :=
  if T < 100 then pure 0.101325 else (SW_Psat T S).map (fun x => x / 1e6)

/-- Arithmetic body of `SW_Density` (source lines 254-301) with the
reference pressure `P0` passed explicitly. -/
noncomputable def density_formula (T S P P0 : ℝ) : ℝ :=
  let S_kgkg := S / 1000
  let a1 := (9.9992293295e2 : ℝ)
  let a2 := (2.0341179217e-2 : ℝ)
  let a3 := (-6.1624591598e-3 : ℝ)
  let a4 := (2.2614664708e-5 : ℝ)
  let a5 := (-4.6570659168e-8 : ℝ)
  let b1 := (8.0200240891e2 : ℝ)
  let b2 := (-2.0005183488 : ℝ)
  let b3 := (1.6771024982e-2 : ℝ)
  let b4 := (-3.0600536746e-5 : ℝ)
  let b5 := (-1.6132224742e-5 : ℝ)
  let rho_w := a1 + a2 * T + a3 * T ^ 2 + a4 * T ^ 3 + a5 * T ^ 4
  let D_rho := b1 * S_kgkg + b2 * S_kgkg * T + b3 * S_kgkg * T ^ 2 +
    b4 * S_kgkg * T ^ 3 + b5 * S_kgkg ^ 2 * T ^ 2
  let rho_sw_sharq := rho_w + D_rho
  let c1 := (5.0792e-4 : ℝ)
  let c2 := (-3.4168e-6 : ℝ)
  let c3 := (5.6931e-8 : ℝ)
  let c4 := (-3.7263e-10 : ℝ)
  let c5 := (1.4465e-12 : ℝ)
  let c6 := (-1.7058e-15 : ℝ)
  let c7 := (-1.3389e-6 : ℝ)
  let c8 := (4.8603e-9 : ℝ)
  let c9 := (-6.8039e-13 : ℝ)
  let d1 := (-1.1077e-6 : ℝ)
  let d2 := (5.5584e-9 : ℝ)
  let d3 := (-4.2539e-11 : ℝ)
  let d4 := (8.3702e-9 : ℝ)
  let _kT := c1 + c2 * T + c3 * T ^ 2 + c4 * T ^ 3 +
    c5 * T ^ 4 + c6 * T ^ 5 +
    P * (c7 + c8 * T + c9 * T ^ 3) +
    S * (d1 + d2 * T + d3 * T ^ 2 + d4 * P)
  let F_P := Real.exp ((P - P0) * (c1 + c2 * T + c3 * T ^ 2 +
    c4 * T ^ 3 + c5 * T ^ 4 + c6 * T ^ 5 +
    S * (d1 + d2 * T + d3 * T ^ 2)) +
    0.5 * (P ^ 2 - P0 ^ 2) *
    (c7 + c8 * T + c9 * T ^ 3 + d4 * S))
  rho_sw_sharq * F_P

/-- Density of seawater, `SW_Density` (source lines 238-302): the inline
reference-pressure resolution happens before the pressure bound check,
exactly as in the source. -/
noncomputable def SW_Density (T S P : ℝ) : Except Err ℝ :=
  if T < 0 ∨ T > 180 then
    .error (.domain "Temperature is out of range for density function 0 < T < 180 C")
  else if S < 0 ∨ S > 150 then
    .error (.domain "Salinity is out of range for density function 0 < S < 150 g/kg")
  else do
    let P0 ← resolveP0 T S
    let psat ← (SW_Psat T S).map (fun x => x / 1e6)
    if P < psat ∨ P > 12 then
      .error (.domain "Pressure is out of range for density function P_sat < P < 12 MPa")
    else
      pure (density_formula T S P P0)

/-- Specific volume of seawater, `SW_Volume` (source lines 1051-1062). -/
noncomputable def SW_Volume (T S P : ℝ) : Except Err ℝ :=
  if T < 0 ∨ T > 180 then
    .error (.domain "Temperature is out of range for specific volume function 0 < T < 180 C")
  else if S < 0 ∨ S > 150 then
    .error (.domain "Salinity is out of range for specific volume function 0 < S < 150 g/kg")
  else do
    let rho ← SW_Density T S P
    pure (1 / rho)

/-- Arithmetic body of `SW_Enthalpy` (source lines 352-384) with the
reference pressure `P0` passed explicitly. -/
noncomputable def enthalpy_formula (T S P P0 : ℝ) : ℝ :=
  let S_kgkg := S / 1000
  let h_w := 141.355 + 4202.07 * T - 0.535 * T ^ 2 + 0.004 * T ^ 3
  let b1 := (-2.34825e4 : ℝ)
  let b2 := (3.15183e5 : ℝ)
  let b3 := (2.80269e6 : ℝ)
  let b4 := (-1.44606e7 : ℝ)
  let b5 := (7.82607e3 : ℝ)
  let b6 := (-4.41733e1 : ℝ)
  let b7 := (2.1394e-1 : ℝ)
  let b8 := (-1.99108e4 : ℝ)
  let b9 := (2.77846e4 : ℝ)
  let b10 := (9.72801e1 : ℝ)
  let c1 := (996.7767 : ℝ)
  let c2 := (-3.2406 : ℝ)
  let c3 := (0.0127 : ℝ)
  let c4 := (-4.7723e-5 : ℝ)
  let c5 := (-1.1748 : ℝ)
  let c6 := (0.01169 : ℝ)
  let c7 := (-2.6185e-5 : ℝ)
  let c8 := (7.0661e-8 : ℝ)
  let h_sw_P := (P - P0) * (c1 + c2 * T + c3 * T ^ 2 + c4 * T ^ 3 +
    S * (c5 + c6 * T + c7 * T ^ 2 + c8 * T ^ 3))
  h_w - S_kgkg * (b1 + b2 * S_kgkg + b3 * S_kgkg ^ 2 + b4 * S_kgkg ^ 3 +
    b5 * T + b6 * T ^ 2 + b7 * T ^ 3 + b8 * S_kgkg * T +
    b9 * S_kgkg ^ 2 * T + b10 * S_kgkg * T ^ 2) + h_sw_P

/-- Specific enthalpy of seawater, `SW_Enthalpy` (source lines 336-385). -/
noncomputable def SW_Enthalpy (T S P : ℝ) : Except Err ℝ :=
  if T < 10 ∨ T > 120 then
    .error (.domain "Temperature is out of range for enthalpy function 10 < T < 120 C")
  else if S < 0 ∨ S > 120 then
    .error (.domain "Salinity is out of range for enthalpy function 0 < S < 120 g/kg")
  else do
    let psat ← (SW_Psat T S).map (fun x => x / 1e6)
    if P < psat ∨ P > 12 then
      .error (.domain "Pressure is out of range for enthalpy function P_sat < P < 12 MPa")
    else do
      let P0 ← resolveP0 T S
      pure (enthalpy_formula T S P P0)

/-- Arithmetic body of `SW_Entropy` (source lines 411-449) with the
reference pressure `P0` passed explicitly. -/
noncomputable def entropy_formula (T S P P0 : ℝ) : ℝ :=
  let S_kgkg := S / 1000
  let a1 := (1.543226508e-1 : ℝ)
  let a2 := (1.5382700241e1 : ℝ)
  let a3 := (-2.9963211781e-2 : ℝ)
  let a4 := (8.1929151062e-5 : ℝ)
  let a5 := (-1.3699640311e-7 : ℝ)
  let s_w := a1 + a2 * T + a3 * T ^ 2 + a4 * T ^ 3 + a5 * T ^ 4
  let b1 := (-4.2307343871e2 : ℝ)
  let b2 := (1.4630334922e4 : ℝ)
  let b3 := (-9.8796297642e4 : ℝ)
  let b4 := (3.0946224962e5 : ℝ)
  let b5 := (2.5623880831e1 : ℝ)
  let b6 := (-1.4432346624e-1 : ℝ)
  let b7 := (5.8790568541e-4 : ℝ)
  let b8 := (-6.110676427e1 : ℝ)
  let b9 := (8.0408001971e1 : ℝ)
  let b10 := (3.0354282687e-1 : ℝ)
  let c1 := (-4.4786e-3 : ℝ)
  let c2 := (-1.1654e-2 : ℝ)
  let c3 := (6.1154e-5 : ℝ)
  let c4 := (-2.0696e-7 : ℝ)
  let c5 := (-1.5531e-3 : ℝ)
  let c6 := (4.0054e-5 : ℝ)
  let c7 := (-1.4193e-7 : ℝ)
  let c8 := (3.3142e-10 : ℝ)
  let s_sw_P := (P - P0) * (c1 + c2 * T + c3 * T ^ 2 + c4 * T ^ 3 +
    S * (c5 + c6 * T + c7 * T ^ 2 + c8 * T ^ 3))
  s_w - S_kgkg * (b1 + b2 * S_kgkg + b3 * S_kgkg ^ 2 + b4 * S_kgkg ^ 3 +
    b5 * T + b6 * T ^ 2 + b7 * T ^ 3 + b8 * S_kgkg * T +
    b9 * S_kgkg ^ 2 * T + b10 * S_kgkg * T ^ 2) + s_sw_P

/-- Specific entropy of seawater, `SW_Entropy` (source lines 395-450). -/
noncomputable def SW_Entropy (T S P : ℝ) : Except Err ℝ :=
  if T < 10 ∨ T > 120 then
    .error (.domain "Temperature is out of range for entropy function 10 < T < 120 C")
  else if S < 0 ∨ S > 120 then
    .error (.domain "Salinity is out of range for entropy function 0 < S < 120 g/kg")
  else do
    let psat ← (SW_Psat T S).map (fun x => x / 1e6)
    if P < psat ∨ P > 12 then
      .error (.domain "Pressure is out of range for entropy function P_sat < P < 12 MPa")
    else do
      let P0 ← resolveP0 T S
      pure (entropy_formula T S P P0)

/-- Arithmetic body of `SW_Gibbs` (source lines 530-571) with the
reference pressure `P0` passed explicitly: the salinity correction
`g_sw_P0` is evaluated only when `S > 0` (the `Math.log(S)` branch guard),
and is 0 otherwise. -/
noncomputable def gibbs_formula (T S P P0 : ℝ) : ℝ :=
  let a1 := (1.0677e2 : ℝ)
  let a2 := (-1.4303 : ℝ)
  let a3 := (-7.6139 : ℝ)
  let a4 := (8.3627e-3 : ℝ)
  let a5 := (-7.8754e-6 : ℝ)
  let g_w := a1 + a2 * T + a3 * T ^ 2 + a4 * T ^ 3 + a5 * T ^ 4
  let b1 := (-2.4176e2 : ℝ)
  let b2 := (-6.2462e-1 : ℝ)
  let b3 := (7.4761e-3 : ℝ)
  let b4 := (1.3836e-3 : ℝ)
  let b5 := (-6.7157e-6 : ℝ)
  let b6 := (5.1993e-4 : ℝ)
  let b7 := (9.9176e-9 : ℝ)
  let b8 := (6.6448e1 : ℝ)
  let b9 := (2.0681e-1 : ℝ)
  let g_sw_P0 : ℝ :=
    if S > 0 then
      b1 * S + b2 * S * T + b3 * S * T ^ 2 +
      b4 * S ^ 2 * T + b5 * S ^ 2 * T ^ 2 +
      b6 * S ^ 3 + b7 * S ^ 3 * T ^ 2 +
      b8 * S * Real.log S + b9 * S * T * Real.log S
    else 0
  let c1 := (996.1978 : ℝ)
  let c2 := (3.491e-2 : ℝ)
  let c3 := (4.7231e-3 : ℝ)
  let c4 := (-6.9037e-6 : ℝ)
  let c5 := (-7.2431e-1 : ℝ)
  let c6 := (1.5712e-3 : ℝ)
  let c7 := (-1.8919e-5 : ℝ)
  let c8 := (2.5939e-8 : ℝ)
  let g_sw_P := (P - P0) * (c1 + c2 * T + c3 * T ^ 2 + c4 * T ^ 3 +
    S * (c5 + c6 * T + c7 * T ^ 2 + c8 * T ^ 3))
  g_w + g_sw_P0 + g_sw_P

/-- Specific Gibbs energy of seawater, `SW_Gibbs` (source lines 513-572). -/
noncomputable def SW_Gibbs (T S P : ℝ) : Except Err ℝ :=
  if T < 10 ∨ T > 120 then
    .error (.domain "Temperature is out of range for Gibbs function 10 < T < 120 C")
  else if S < 0 ∨ S > 120 then
    .error (.domain "Salinity is out of range for Gibbs function 0 < S < 120 g/kg")
  else do
    let psat ← (SW_Psat T S).map (fun x => x / 1e6)
    if P < psat ∨ P > 12 then
      .error (.domain "Pressure is out of range for Gibbs function P_sat < P < 12 MPa")
    else do
      let P0 ← resolveP0 T S
      pure (gibbs_formula T S P P0)

/-- Salinity derivative term `S * dg_ds` of `SW_ChemPot_w` (source lines
142-159) with the reference pressure `P0` passed explicitly: computed only
when `S > 0`, and 0 otherwise. -/
noncomputable def chemPotW_Sdg_dS (T S P P0 : ℝ) : ℝ :=
  let b1 := (-2.4176e2 : ℝ)
  let b2 := (-6.2462e-1 : ℝ)
  let b3 := (7.4761e-3 : ℝ)
  let b4 := (1.3836e-3 : ℝ)
  let b5 := (-6.7157e-6 : ℝ)
  let b6 := (5.1993e-4 : ℝ)
  let b7 := (9.9176e-9 : ℝ)
  let b8 := (6.6448e1 : ℝ)
  let b9 := (2.0681e-1 : ℝ)
  if S > 0 then
    let dg_ds_P0 := b1 + b2 * T + b3 * T ^ 2 +
      2 * b4 * S * T + 2 * b5 * S * T ^ 2 +
      3 * b6 * S ^ 2 + 3 * b7 * S ^ 2 * T ^ 2 +
      b8 * (Real.log S + 1) + b9 * T * (Real.log S + 1)
    let c5 := (-7.2431e-1 : ℝ)
    let c6 := (1.5712e-3 : ℝ)
    let c7 := (-1.8919e-5 : ℝ)
    let c8 := (2.5939e-8 : ℝ)
    let dg_ds_P := (P - P0) * (c5 + c6 * T + c7 * T ^ 2 + c8 * T ^ 3)
    S * (dg_ds_P0 + dg_ds_P)
  else 0

/-- Chemical potential of water in seawater, `SW_ChemPot_w` (source lines
106-162), including the combined bound check on elevated pressure. -/
noncomputable def SW_ChemPot_w (T S P : ℝ) : Except Err ℝ :=
  if T < 10 ∨ T > 80 then
    .error (.domain "Temperature is out of range for the chemical potential of water function 10 < T < 80 C")
  else if S < 0 ∨ S > 120 then
    .error (.domain "Salinity is out of range for the chemical potential of water function 0 < S < 120 g/kg")
  else do
    let psat ← (SW_Psat T S).map (fun x => x / 1e6)
    if P < psat ∨ P > 12 then
      .error (.domain "Pressure is out of range for the chemical potential of water function P_sat < P < 12 MPa")
    else do
      let P0 ← resolveP0 T S
      if P > P0 ∧ (S > 42 ∨ T > 40) then
        .error (.domain "Salinity is out of range for the chemical potential of water function 10 < T < 40 C; 0 < S < 42 g/kg; P_sat < P < 12 MPa")
      else do
        let g ← SW_Gibbs T S P
        pure (g - chemPotW_Sdg_dS T S P P0)

/-- Salinity derivative `dg_ds` of `SW_ChemPot_s` (source lines 71-92)
with the reference pressure `P0` passed explicitly (no `S > 0` guard in
the source: `Math.log(S)` is evaluated unconditionally). -/
noncomputable def chemPotS_dg_ds (T S P P0 : ℝ) : ℝ :=
  let b1 := (-2.4176e2 : ℝ)
  let b2 := (-6.2462e-1 : ℝ)
  let b3 := (7.4761e-3 : ℝ)
  let b4 := (1.3836e-3 : ℝ)
  let b5 := (-6.7157e-6 : ℝ)
  let b6 := (5.1993e-4 : ℝ)
  let b7 := (9.9176e-9 : ℝ)
  let b8 := (6.6448e1 : ℝ)
  let b9 := (2.0681e-1 : ℝ)
  let dg_ds_P0 := b1 + b2 * T + b3 * T ^ 2 +
    2 * b4 * S * T + 2 * b5 * S * T ^ 2 +
    3 * b6 * S ^ 2 + 3 * b7 * S ^ 2 * T ^ 2 +
    b8 * (Real.log S + 1) + b9 * T * (Real.log S + 1)
  let c5 := (-7.2431e-1 : ℝ)
  let c6 := (1.5712e-3 : ℝ)
  let c7 := (-1.8919e-5 : ℝ)
  let c8 := (2.5939e-8 : ℝ)
  let dg_ds_P := (P - P0) * (c5 + c6 * T + c7 * T ^ 2 + c8 * T ^ 3)
  dg_ds_P0 + dg_ds_P

/-- Chemical potential of salt in seawater, `SW_ChemPot_s` (source lines
45-96). -/
noncomputable def SW_ChemPot_s (T S P : ℝ) : Except Err ℝ :=
  if T < 10 ∨ T > 80 then
    .error (.domain "Temperature is out of range for the chemical potential of salt function 10 < T < 80 C")
  else if S < 0.1 ∨ S > 120 then
    .error (.domain "Salinity is out of range for the chemical potential of salt function 0.1 < S < 120 g/kg")
  else do
    let psat ← (SW_Psat T S).map (fun x => x / 1e6)
    if P < psat ∨ P > 12 then
      .error (.domain "Pressure is out of range for the chemical potential of salt function P_sat < P < 12 MPa")
    else do
      let P0 ← resolveP0 T S
      if P > P0 ∧ (S > 42 ∨ T > 40) then
        .error (.domain "Salinity is out of range for the chemical potential of salt function 10 < T < 40 C; 0.1 < S < 42 g/kg; P_sat < P < 12 MPa")
      else do
        let g ← SW_Gibbs T S P
        pure (g + (1000 - S) * chemPotS_dg_ds T S P P0)

/-- Arithmetic body of `SW_SpcHeat` (source lines 953-977) with the
reference pressure `P0` passed explicitly. -/
noncomputable def spcheat_formula (T S P P0 : ℝ) : ℝ :=
  let T68 := 1.00024 * T
  let SP := S / 1.00472
  let A := 5.328 - 9.76e-2 * SP + 4.04e-4 * SP ^ 2
  let B := -6.913e-3 + 7.351e-4 * SP - 3.15e-6 * SP ^ 2
  let C := 9.6e-6 - 1.927e-6 * SP + 8.23e-9 * SP ^ 2
  let D := 2.5e-9 + 1.666e-9 * SP - 7.125e-12 * SP ^ 2
  let cp_sw_P0 := 1000 * (A + B * T68 + C * T68 ^ 2 + D * T68 ^ 3)
  let c1 := (-3.1118 : ℝ)
  let c2 := (0.0157 : ℝ)
  let c3 := (5.1014e-5 : ℝ)
  let c4 := (-1.0302e-6 : ℝ)
  let c5 := (0.0107 : ℝ)
  let c6 := (-3.9716e-5 : ℝ)
  let c7 := (3.2088e-8 : ℝ)
  let c8 := (1.0119e-9 : ℝ)
  let cp_sw_P := (P - P0) * (c1 + c2 * T + c3 * T ^ 2 + c4 * T ^ 3 +
    S * (c5 + c6 * T + c7 * T ^ 2 + c8 * T ^ 3))
  cp_sw_P0 + cp_sw_P

/-- Specific heat capacity of seawater, `SW_SpcHeat` (source lines
935-978): note its own salinity bound is 0-180 g/kg while the `SW_Psat`
call it makes accepts only 0-160 g/kg. -/
noncomputable def SW_SpcHeat (T S P : ℝ) : Except Err ℝ :=
  if T < 0 ∨ T > 180 then
    .error (.domain "Temperature is out of range for specific heat capacity function 0 < T < 180 C")
  else if S < 0 ∨ S > 180 then
    .error (.domain "Salinity is out of range for specific heat capacity function 0 < S < 180 g/kg")
  else do
    let psat ← (SW_Psat T S).map (fun x => x / 1e6)
    if P < psat ∨ P > 12 then
      .error (.domain "Pressure is out of range for specific heat capacity function P_sat < P < 12 MPa")
    else do
      let P0 ← resolveP0 T S
      pure (spcheat_formula T S P P0)

/-- Arithmetic body of `SW_Conductivity` (source lines 180-185). -/
noncomputable def conductivity_val (T S : ℝ) : ℝ :=
  let T68 := 1.00024 * T
  let SP := S / 1.00472
  0.001 * (10 : ℝ) ^ (Real.logb 10 (240 + 0.0002 * SP) + 0.434 *
    (2.3 - (343.5 + 0.037 * SP) / (T68 + 273.15)) *
    (1 - (T68 + 273.15) / (647.3 + 0.03 * SP)) ^ ((1 : ℝ) / 3))

/-- Thermal conductivity of seawater, `SW_Conductivity` (source lines
171-186). -/
noncomputable def SW_Conductivity (T S : ℝ) : Except Err ℝ :=
  if T < 0 ∨ T > 180 then
    .error (.domain "Temperature is out of range for thermal conductivity function 0 < T < 180 C")
  else if S < 0 ∨ S > 160 then
    .error (.domain "Salinity is out of range for thermal conductivity function 0 < S < 160 g/kg")
  else
    .ok (conductivity_val T S)

/-- Arithmetic body of `SW_Viscosity` (source lines 1019-1040). -/
noncomputable def viscosity_val (T S : ℝ) : ℝ :=
  let S_kgkg := S / 1000
  let a1 := (0.15700386464 : ℝ)
  let a2 := (64.99262005 : ℝ)
  let a3 := (-91.296496657 : ℝ)
  let a4 := (0.000042844324477 : ℝ)
  let mu_w := a4 + 1 / (a1 * (T + a2) ^ 2 + a3)
  let a5 := (1.540913604 : ℝ)
  let a6 := (0.019981117208 : ℝ)
  let a7 := (-0.000095203865864 : ℝ)
  let a8 := (7.9739318223 : ℝ)
  let a9 := (-0.075614568881 : ℝ)
  let a10 := (0.00047237011074 : ℝ)
  let A := a5 + a6 * T + a7 * T ^ 2
  let B := a8 + a9 * T + a10 * T ^ 2
  mu_w * (1 + A * S_kgkg + B * S_kgkg ^ 2)

/-- Dynamic viscosity of seawater, `SW_Viscosity` (source lines
1010-1041). -/
noncomputable def SW_Viscosity (T S : ℝ) : Except Err ℝ :=
  if T < 0 ∨ T > 180 then
    .error (.domain "Temperature is out of range for viscosity function 0 < T < 180 C")
  else if S < 0 ∨ S > 150 then
    .error (.domain "Salinity is out of range for viscosity function 0 < S < 150 g/kg")
  else
    .ok (viscosity_val T S)

/-- Thermal diffusivity of seawater, `SW_Diffusivity` (source lines
311-326): conductivity over density times heat capacity, all at the
internally resolved reference pressure. -/
noncomputable def SW_Diffusivity (T S : ℝ) : Except Err ℝ :=
  if T < 0 ∨ T > 180 then
    .error (.domain "Temperature is out of range for diffusivity function 0 < T < 180 C")
  else if S < 0 ∨ S > 150 then
    .error (.domain "Salinity is out of range for diffusivity function 0 < S < 150 g/kg")
  else do
    let P0 ← resolveP0 T S
    let rho ← SW_Density T S P0
    let cp ← SW_SpcHeat T S P0
    let K ← SW_Conductivity T S
    pure (K / (rho * cp))

/-- The inline reference-pressure resolution of `SW_Kviscosity` (source
line 744), written in the source with the inverted conditional
`T >= 100 ? SW_Psat(T, S) / 1e6 : 0.101325`. -/
noncomputable def kviscosityP0 (T S : ℝ) : Except Err ℝ :=
  if T ≥ 100 then (SW_Psat T S).map (fun x => x / 1e6) else pure 0.101325

/-- Kinematic viscosity of seawater, `SW_Kviscosity` (source lines
735-749). -/
noncomputable def SW_Kviscosity (T S : ℝ) : Except Err ℝ :=
  if T < 0 ∨ T > 180 then
    .error (.domain "Temperature is out of range for kinematic viscosity function 0 < T < 180 C")
  else if S < 0 ∨ S > 150 then
    .error (.domain "Salinity is out of range for kinematic viscosity function 0 < S < 150 g/kg")
  else do
    let P0 ← kviscosityP0 T S
    let rho ← SW_Density T S P0
    let mu ← SW_Viscosity T S
    pure (mu / rho)

/-- Prandtl number of seawater, `SW_Prandtl` (source lines 910-925). -/
noncomputable def SW_Prandtl (T S : ℝ) : Except Err ℝ :=
  if T < 0 ∨ T > 180 then
    .error (.domain "Temperature is out of range for Prandtl function 0 < T < 180 C")
  else if S < 0 ∨ S > 150 then
    .error (.domain "Salinity is out of range for Prandtl function 0 < S < 150 g/kg")
  else do
    let P0 ← resolveP0 T S
    let cp ← SW_SpcHeat T S P0
    let mu ← SW_Viscosity T S
    let K ← SW_Conductivity T S
    pure (cp * mu / K)

/-- Arithmetic body of `SW_IsobExp` (source lines 625-682) with the
reference pressure `P0` passed explicitly: the analytic temperature
derivative of density, returned as `-drho_dT / rho`. -/
noncomputable def isobexp_formula (T S P P0 : ℝ) : ℝ :=
  let S_kgkg := S / 1000
  let a2 := (2.0341179217e-2 : ℝ)
  let a3 := (-6.1624591598e-3 : ℝ)
  let a4 := (2.2614664708e-5 : ℝ)
  let a5 := (-4.6570659168e-8 : ℝ)
  let a1 := (9.9992293295e2 : ℝ)
  let b1 := (8.0200240891e2 : ℝ)
  let b2 := (-2.0005183488 : ℝ)
  let b3 := (1.6771024982e-2 : ℝ)
  let b4 := (-3.0600536746e-5 : ℝ)
  let b5 := (-1.6132224742e-5 : ℝ)
  let drho_wdT := a2 + 2 * a3 * T + 3 * a4 * T ^ 2 + 4 * a5 * T ^ 3
  let dD_rhodT := b2 * S_kgkg + 2 * b3 * S_kgkg * T + 3 * b4 * S_kgkg * T ^ 2 +
    2 * b5 * S_kgkg ^ 2 * T
  let rho_w := a1 + a2 * T + a3 * T ^ 2 + a4 * T ^ 3 + a5 * T ^ 4
  let D_rho := b1 * S_kgkg + b2 * S_kgkg * T + b3 * S_kgkg * T ^ 2 +
    b4 * S_kgkg * T ^ 3 + b5 * S_kgkg ^ 2 * T ^ 2
  let rho_sw_sharq := rho_w + D_rho
  let drho_sw_sharqdT := drho_wdT + dD_rhodT
  let c1 := (5.0792e-4 : ℝ)
  let c2 := (-3.4168e-6 : ℝ)
  let c3 := (5.6931e-8 : ℝ)
  let c4 := (-3.7263e-10 : ℝ)
  let c5 := (1.4465e-12 : ℝ)
  let c6 := (-1.7058e-15 : ℝ)
  let c7 := (-1.3389e-6 : ℝ)
  let c8 := (4.8603e-9 : ℝ)
  let c9 := (-6.8039e-13 : ℝ)
  let d1 := (-1.1077e-6 : ℝ)
  let d2 := (5.5584e-9 : ℝ)
  let d3 := (-4.2539e-11 : ℝ)
  let d4 := (8.3702e-9 : ℝ)
  let F_P := Real.exp ((P - P0) * (c1 + c2 * T + c3 * T ^ 2 +
    c4 * T ^ 3 + c5 * T ^ 4 + c6 * T ^ 5 +
    S * (d1 + d2 * T + d3 * T ^ 2)) +
    0.5 * (P ^ 2 - P0 ^ 2) *
    (c7 + c8 * T + c9 * T ^ 3 + d4 * S))
  let dF_PdT := F_P * ((P - P0) * (c2 + 2 * c3 * T + 3 * c4 * T ^ 2 +
    4 * c5 * T ^ 3 + 5 * c6 * T ^ 4 +
    S * (d2 + 2 * d3 * T)) +
    0.5 * (P ^ 2 - P0 ^ 2) *
    (c8 + 3 * c9 * T ^ 2))
  let rho := rho_sw_sharq * F_P
  let drho_dT := drho_sw_sharqdT * F_P + rho_sw_sharq * dF_PdT
  let alpha_p := -drho_dT / rho
  alpha_p

/-- Isobaric thermal expansivity of seawater, `SW_IsobExp` (source lines
609-683). -/
noncomputable def SW_IsobExp (T S P : ℝ) : Except Err ℝ :=
  if T < 0 ∨ T > 180 then
    .error (.domain "Temperature is out of range for isobaric expansivity function 0 < T < 180 C")
  else if S < 0 ∨ S > 150 then
    .error (.domain "Salinity is out of range for isobaric expansivity function 0 < S < 150 g/kg")
  else do
    let psat ← (SW_Psat T S).map (fun x => x / 1e6)
    if P < psat ∨ P > 12 then
      .error (.domain "Pressure is out of range for isobaric expansivity function P_sat < P < 12 MPa")
    else do
      let P0 ← resolveP0 T S
      pure (isobexp_formula T S P P0)

/-- Direct polynomial branch of `SW_OsmCoeff` (source lines 830-833),
also used (at the anchor salinity 10 g/kg) inside the Pitzer-Bronsted
branch. -/
def osm_poly (T S : ℝ) : ℝ :=
  let a1 := (0.89453233003 : ℝ)
  let a2 := (0.00041560737424 : ℝ)
  let a3 := (-0.0000046262121398 : ℝ)
  let a4 := (0.000000000022211195897 : ℝ)
  let a5 := (-0.00011445456438 : ℝ)
  let a6 := (-0.0000014783462366 : ℝ)
  let a7 := (-0.000000000013526263499 : ℝ)
  let a8 := (0.0000070132355546 : ℝ)
  let a9 := (0.000000056960486681 : ℝ)
  let a10 := (-0.00000000028624032584 : ℝ)
  a1 + a2 * T + a3 * T ^ 2 + a4 * T ^ 4 +
    a5 * S + a6 * T * S + a7 * S * T ^ 3 +
    a8 * S ^ 2 + a9 * S ^ 2 * T +
    a10 * S ^ 2 * T ^ 2

/-- Arithmetic body of `SW_OsmCoeff` (source lines 793-834): for
`S ≤ 10` the Pitzer-Bronsted form anchored at the equivalent salinity
`S_eq = 10` (with `Math.pow(m, 0.5)` modelled by `Real.sqrt` and
`Math.pow(m, -0.5)` by its inverse), otherwise the direct polynomial. -/
noncomputable def osmcoeff_val (T S : ℝ) : ℝ :=
  let a5 := (-0.00011445456438 : ℝ)
  let a6 := (-0.0000014783462366 : ℝ)
  let a7 := (-0.000000000013526263499 : ℝ)
  let a8 := (0.0000070132355546 : ℝ)
  let a9 := (0.000000056960486681 : ℝ)
  let a10 := (-0.00000000028624032584 : ℝ)
  let MW_s := (31.4038218 : ℝ)
  if S ≤ 10 then
    let S_eq := (10 : ℝ)
    let Phi_corr_eq := osm_poly T S_eq
    let dPhi_corr_eq := a5 + a6 * T + a7 * T ^ 3 +
      2 * a8 * S_eq + 2 * a9 * S_eq * T +
      2 * a10 * S_eq * T ^ 2
    let m_sum_eq := S_eq / (1000 - S_eq) * (1000 / MW_s)
    let dmds_eq := (1000 / MW_s) * (1 / (1000 - S_eq) + S_eq / (1000 - S_eq) ^ 2)
    let beta := -2 * ((Real.sqrt m_sum_eq)⁻¹ * (Phi_corr_eq - 1) -
      dPhi_corr_eq * Real.sqrt m_sum_eq / dmds_eq)
    let lambda := (Phi_corr_eq + beta * Real.sqrt m_sum_eq - 1) / m_sum_eq
    let m_sum := S / (1000 - S) * (1000 / MW_s)
    1 - beta * Real.sqrt m_sum + lambda * m_sum
  else
    osm_poly T S

/-- Osmotic coefficient of seawater, `SW_OsmCoeff` (source lines
784-835). -/
noncomputable def SW_OsmCoeff (T S : ℝ) : Except Err ℝ :=
  if T < 0 ∨ T > 120 then
    .error (.domain "Temperature is out of range for osmotic coefficient function 0 < T < 120 C")
  else if S < 0 ∨ S > 120 then
    .error (.domain "Salinity is out of range for osmotic coefficient function 0 < S < 120 g/kg")
  else
    .ok (osmcoeff_val T S)

/-- The inline reference-pressure resolution of `SW_OsmPress` (source
line 860): `T < 100 ? 0.101325 : SW_Psat(T, 0) / 1e6` - the saturation
pressure is taken at salinity 0, not at the function's own salinity. -/
noncomputable def osmPressP0 (T : ℝ) : Except Err ℝ :=
  if T < 100 then pure 0.101325 else (SW_Psat T 0).map (fun x => x / 1e6)

/-- Osmotic pressure of seawater, `SW_OsmPress` (source lines 844-865). -/
noncomputable def SW_OsmPress (T S : ℝ) : Except Err ℝ :=
  if T < 0 ∨ T > 120 then
    .error (.domain "Temperature is out of range for osmotic pressure function 0 < T < 120 C")
  else if S < 0 ∨ S > 120 then
    .error (.domain "Salinity is out of range for osmotic pressure function 0 < S < 120 g/kg")
  else do
    let Phi ← SW_OsmCoeff T S
    let T_K := T + 273.15
    let Mw_sw := (31.4038218 : ℝ)
    let R := (8.3144598 : ℝ)
    let m_sum := 1000 * S / ((1000 - S) * Mw_sw)
    let P0 ← osmPressP0 T
    let rho_w_kgm3 ← SW_Density T 0 P0
    pure (Phi * m_sum * R * T_K * rho_w_kgm3 / 1e6)

/-- The call expression `SW_SChemPot_s(T0, S, P0)` appearing at source
lines 494, 498 and 499 of `SW_FlowExergy`: the identifier
`SW_SChemPot_s` is not defined anywhere in the module (the module defines
`SW_ChemPot_s` only), so in JavaScript evaluating this call throws a
`ReferenceError` before any argument is used. -/
def SW_SChemPot_s_call : Except Err ℝ :=
  .error (.undefinedFn "SW_SChemPot_s")

/-- Specific flow exergy of seawater, `SW_FlowExergy` (source lines
463-503).  The three optional dead-state arguments are resolved by the
JavaScript `||` defaulting idiom (`jsOr`); the body mirrors the source
statement by statement, including the call at line 494 to the undefined
identifier `SW_SChemPot_s` (and the further such calls at lines
498-499, dead in execution order). -/
noncomputable def SW_FlowExergy (T S P : ℝ) (T0o S0o P0o : Option ℝ) : Except Err ℝ :=
  if T < 10 ∨ T > 80 then
    .error (.domain "Temperature is out of range for flow exergy function 10 < T < 80 C")
  else if S < 0 ∨ S > 120 then
    .error (.domain "Salinity is out of range for flow exergy function 0 < S < 120 g/kg")
  else do
    let psat ← (SW_Psat T S).map (fun x => x / 1e6)
    if P < psat ∨ P > 12 then
      .error (.domain "Pressure is out of range for flow exergy function P_sat < P < 12 MPa")
    else
      let T0 := jsOr T0o 25
      let S0 := jsOr S0o 35
      let P0 := jsOr P0o 0.101325
      if S0 < 0.1 then
        .error (.domain "Reference salinity is out of allowed range for flow exergy function 0.1 < S0 < 120")
      else do
        let h_sw ← SW_Enthalpy T S P
        let s_sw ← SW_Entropy T S P
        let h_sw_star ← SW_Enthalpy T0 S P0
        let s_sw_star ← SW_Entropy T0 S P0
        let mu_w_star ← SW_ChemPot_w T0 S P0
        let Smu_s_star ← SW_SChemPot_s_call
        let mu_w_0 ← SW_ChemPot_w T0 S0 P0
        let _S0mu_s_0 ← SW_SChemPot_s_call
        let Smu_s_0 ← SW_SChemPot_s_call.map (fun x => x * (S / S0))
        pure ((h_sw - h_sw_star) - (T0 + 273.15) * (s_sw - s_sw_star) +
          (1 - 0.001 * S) * (mu_w_star - mu_w_0) +
          0.001 * (Smu_s_star - Smu_s_0))

/-! ## Plumbing lemmas for the `Except` monad -/

theorem ok_bind {α β : Type} (a : α) (f : α → Except Err β) :
    (Except.ok a >>= f : Except Err β) = f a := rfl

theorem error_bind {α β : Type} (e : Err) (f : α → Except Err β) :
    (Except.error e >>= f : Except Err β) = Except.error e := rfl

theorem map_ok {α β : Type} (f : α → β) (a : α) :
    (Except.ok a : Except Err α).map f = Except.ok (f a) := rfl

theorem map_error {α β : Type} (f : α → β) (e : Err) :
    (Except.error e : Except Err α).map f = Except.error e := rfl

/-! ## Guard reduction lemmas -/

theorem SW_Psat_ok (T S : ℝ) (hT : ¬(T < 0 ∨ T > 180)) (hS : ¬(S < 0 ∨ S > 160)) :
    SW_Psat T S = Except.ok (psat_val T S) := by
  unfold SW_Psat
  rw [if_neg hT, if_neg hS]

theorem SW_Psat_highS (T S : ℝ) (hT : ¬(T < 0 ∨ T > 180)) (hS : S > 160) :
    SW_Psat T S = Except.error
      (.domain "Salinity is out of range for vapor pressure function 0 < S < 160 g/kg") := by
  unfold SW_Psat
  rw [if_neg hT, if_pos (Or.inr hS)]

theorem resolveP0_ok (T S : ℝ) (hT : ¬(T < 0 ∨ T > 180)) (hS : ¬(S < 0 ∨ S > 160)) :
    resolveP0 T S = Except.ok (refP0 T S) := by
  unfold resolveP0 refP0
  by_cases h : T < 100
  · rw [if_pos h, if_pos h]; rfl
  · rw [if_neg h, if_neg h, SW_Psat_ok T S hT hS, map_ok]

theorem refP0_low {T : ℝ} (S : ℝ) (h : T < 100) : refP0 T S = 0.101325 := by
  unfold refP0; rw [if_pos h]

/-! ## An upper bound on the saturation pressure formula -/

theorem psat_val_lt_1e5 (T S : ℝ) (hS : 0 ≤ S) (h0 : 0 < T + 273.15)
    (h403 : T + 273.15 ≤ 403)
    (hE : (-5800.2206) / (T + 273.15) + 1.3914993 + (-0.048640239) * (T + 273.15) +
      0.000041764768 * (T + 273.15) ^ 2 + (-0.000000014452093) * (T + 273.15) ^ 3 +
      6.5459673 * 6 ≤ 11) :
    psat_val T S < 100000 := by
  have hexp6 : Real.exp 6 = Real.exp 1 ^ (6 : ℕ) := by
    rw [← Real.exp_nat_mul]; norm_num
  have h403e : (403 : ℝ) < Real.exp 6 := by
    rw [hexp6]
    calc (403 : ℝ) < 2.7182818283 ^ (6 : ℕ) := by norm_num
    _ < Real.exp 1 ^ (6 : ℕ) :=
        pow_lt_pow_left₀ Real.exp_one_gt_d9 (by norm_num) (by norm_num)
  have hlog : Real.log (T + 273.15) < 6 :=
    (Real.log_lt_iff_lt_exp h0).mpr (lt_of_le_of_lt h403 h403e)
  have hlogmul : 6.5459673 * Real.log (T + 273.15) < 6.5459673 * 6 :=
    mul_lt_mul_of_pos_left hlog (by norm_num)
  have hexp11 : Real.exp 11 < 100000 := by
    have h1 : Real.exp 11 = Real.exp 1 ^ (11 : ℕ) := by
      rw [← Real.exp_nat_mul]; norm_num
    rw [h1]
    calc Real.exp 1 ^ (11 : ℕ) < 2.7182818286 ^ (11 : ℕ) :=
        pow_lt_pow_left₀ Real.exp_one_lt_d9 (le_of_lt (Real.exp_pos 1)) (by norm_num)
    _ < 100000 := by norm_num
  show Real.exp ((-5800.2206) / (T + 273.15) + 1.3914993 + (-0.048640239) * (T + 273.15) +
      0.000041764768 * (T + 273.15) ^ 2 + (-0.000000014452093) * (T + 273.15) ^ 3 +
      6.5459673 * Real.log (T + 273.15)) *
    Real.exp ((-4.5818e-4) * S + (-2.0443e-6) * S ^ 2) < 100000
  rw [← Real.exp_add]
  refine lt_trans (Real.exp_lt_exp.mpr ?_) hexp11
  nlinarith [sq_nonneg S]

theorem psat_25_35_lt : psat_val 25 35 < 100000 := by
  refine psat_val_lt_1e5 25 35 (by norm_num) (by norm_num) (by norm_num) (by norm_num)

theorem psat_50_0_lt : psat_val 50 0 < 100000 := by
  refine psat_val_lt_1e5 50 0 (by norm_num) (by norm_num) (by norm_num) (by norm_num)

theorem psat_50_35_lt : psat_val 50 35 < 100000 := by
  refine psat_val_lt_1e5 50 35 (by norm_num) (by norm_num) (by norm_num) (by norm_num)

theorem psat_val_pos (T S : ℝ) : 0 < psat_val T S :=
  mul_pos (Real.exp_pos _) (Real.exp_pos _)

/-! ## Evaluated forms of the state functions -/

theorem SW_Density_ok (T S P : ℝ) (hT : ¬(T < 0 ∨ T > 180)) (hS : ¬(S < 0 ∨ S > 150))
    (hP : ¬(P < psat_val T S / 1e6 ∨ P > 12)) :
    SW_Density T S P = Except.ok (density_formula T S P (refP0 T S)) := by
  have hS' : ¬(S < 0 ∨ S > 160) := by
    rintro (h | h)
    · exact hS (Or.inl h)
    · exact hS (Or.inr (by linarith))
  unfold SW_Density
  rw [if_neg hT, if_neg hS]
  rw [resolveP0_ok T S hT hS', SW_Psat_ok T S hT hS']
  simp only [ok_bind, map_ok]
  rw [if_neg hP]
  rfl

theorem range_relax {x lo hi lo' hi' : ℝ} (h : ¬(x < lo ∨ x > hi))
    (h1 : lo' ≤ lo) (h2 : hi ≤ hi') : ¬(x < lo' ∨ x > hi') := by
  push_neg at h ⊢
  exact ⟨by linarith [h.1], by linarith [h.2]⟩

theorem SW_Enthalpy_ok (T S P : ℝ) (hT : ¬(T < 10 ∨ T > 120)) (hS : ¬(S < 0 ∨ S > 120))
    (hP : ¬(P < psat_val T S / 1e6 ∨ P > 12)) :
    SW_Enthalpy T S P = Except.ok (enthalpy_formula T S P (refP0 T S)) := by
  have hT' : ¬(T < 0 ∨ T > 180) := range_relax hT (by norm_num) (by norm_num)
  have hS' : ¬(S < 0 ∨ S > 160) := range_relax hS (by norm_num) (by norm_num)
  unfold SW_Enthalpy
  rw [if_neg hT, if_neg hS, SW_Psat_ok T S hT' hS', resolveP0_ok T S hT' hS']
  simp only [ok_bind, map_ok]
  rw [if_neg hP]
  rfl

theorem SW_Entropy_ok (T S P : ℝ) (hT : ¬(T < 10 ∨ T > 120)) (hS : ¬(S < 0 ∨ S > 120))
    (hP : ¬(P < psat_val T S / 1e6 ∨ P > 12)) :
    SW_Entropy T S P = Except.ok (entropy_formula T S P (refP0 T S)) := by
  have hT' : ¬(T < 0 ∨ T > 180) := range_relax hT (by norm_num) (by norm_num)
  have hS' : ¬(S < 0 ∨ S > 160) := range_relax hS (by norm_num) (by norm_num)
  unfold SW_Entropy
  rw [if_neg hT, if_neg hS, SW_Psat_ok T S hT' hS', resolveP0_ok T S hT' hS']
  simp only [ok_bind, map_ok]
  rw [if_neg hP]
  rfl

theorem SW_Gibbs_ok (T S P : ℝ) (hT : ¬(T < 10 ∨ T > 120)) (hS : ¬(S < 0 ∨ S > 120))
    (hP : ¬(P < psat_val T S / 1e6 ∨ P > 12)) :
    SW_Gibbs T S P = Except.ok (gibbs_formula T S P (refP0 T S)) := by
  have hT' : ¬(T < 0 ∨ T > 180) := range_relax hT (by norm_num) (by norm_num)
  have hS' : ¬(S < 0 ∨ S > 160) := range_relax hS (by norm_num) (by norm_num)
  unfold SW_Gibbs
  rw [if_neg hT, if_neg hS, SW_Psat_ok T S hT' hS', resolveP0_ok T S hT' hS']
  simp only [ok_bind, map_ok]
  rw [if_neg hP]
  rfl

theorem SW_SpcHeat_ok (T S P : ℝ) (hT : ¬(T < 0 ∨ T > 180)) (hS : ¬(S < 0 ∨ S > 160))
    (hP : ¬(P < psat_val T S / 1e6 ∨ P > 12)) :
    SW_SpcHeat T S P = Except.ok (spcheat_formula T S P (refP0 T S)) := by
  have hS' : ¬(S < 0 ∨ S > 180) := range_relax hS (by norm_num) (by norm_num)
  unfold SW_SpcHeat
  rw [if_neg hT, if_neg hS', SW_Psat_ok T S hT hS, resolveP0_ok T S hT hS]
  simp only [ok_bind, map_ok]
  rw [if_neg hP]
  rfl

theorem SW_Conductivity_ok (T S : ℝ) (hT : ¬(T < 0 ∨ T > 180)) (hS : ¬(S < 0 ∨ S > 160)) :
    SW_Conductivity T S = Except.ok (conductivity_val T S) := by
  unfold SW_Conductivity
  rw [if_neg hT, if_neg hS]

theorem SW_Viscosity_ok (T S : ℝ) (hT : ¬(T < 0 ∨ T > 180)) (hS : ¬(S < 0 ∨ S > 150)) :
    SW_Viscosity T S = Except.ok (viscosity_val T S) := by
  unfold SW_Viscosity
  rw [if_neg hT, if_neg hS]

theorem SW_IsobExp_ok (T S P : ℝ) (hT : ¬(T < 0 ∨ T > 180)) (hS : ¬(S < 0 ∨ S > 150))
    (hP : ¬(P < psat_val T S / 1e6 ∨ P > 12)) :
    SW_IsobExp T S P = Except.ok (isobexp_formula T S P (refP0 T S)) := by
  have hS' : ¬(S < 0 ∨ S > 160) := range_relax hS (by norm_num) (by norm_num)
  unfold SW_IsobExp
  rw [if_neg hT, if_neg hS, SW_Psat_ok T S hT hS', resolveP0_ok T S hT hS']
  simp only [ok_bind, map_ok]
  rw [if_neg hP]
  rfl

theorem SW_ChemPot_w_ok (T S P : ℝ) (hT : ¬(T < 10 ∨ T > 80)) (hS : ¬(S < 0 ∨ S > 120))
    (hP : ¬(P < psat_val T S / 1e6 ∨ P > 12))
    (hC : ¬(P > refP0 T S ∧ (S > 42 ∨ T > 40))) :
    SW_ChemPot_w T S P =
      Except.ok (gibbs_formula T S P (refP0 T S) - chemPotW_Sdg_dS T S P (refP0 T S)) := by
  have hT' : ¬(T < 0 ∨ T > 180) := range_relax hT (by norm_num) (by norm_num)
  have hT'' : ¬(T < 10 ∨ T > 120) := range_relax hT (by norm_num) (by norm_num)
  have hS' : ¬(S < 0 ∨ S > 160) := range_relax hS (by norm_num) (by norm_num)
  unfold SW_ChemPot_w
  rw [if_neg hT, if_neg hS, SW_Psat_ok T S hT' hS', resolveP0_ok T S hT' hS']
  simp only [ok_bind, map_ok]
  rw [if_neg hP, if_neg hC, SW_Gibbs_ok T S P hT'' hS hP]
  simp only [ok_bind]
  rfl

/-! ## Concrete-input pressure-guard helpers -/

theorem pressure_guard_25_35 :
    ¬((0.101325 : ℝ) < psat_val 25 35 / 1e6 ∨ (0.101325 : ℝ) > 12) := by
  have h := psat_25_35_lt
  push_neg
  constructor
  · linarith
  · norm_num

theorem pressure_guard_25_35_01 :
    ¬((0.1 : ℝ) < psat_val 25 35 / 1e6 ∨ (0.1 : ℝ) > 12) := by
  have h := psat_25_35_lt
  push_neg
  constructor
  · linarith
  · norm_num

theorem pressure_guard_50_0 :
    ¬((0.101325 : ℝ) < psat_val 50 0 / 1e6 ∨ (0.101325 : ℝ) > 12) := by
  have h := psat_50_0_lt
  push_neg
  constructor
  · linarith
  · norm_num

theorem pressure_guard_50_35 :
    ¬((0.2 : ℝ) < psat_val 50 35 / 1e6 ∨ (0.2 : ℝ) > 12) := by
  have h := psat_50_35_lt
  push_neg
  constructor
  · linarith
  · norm_num

/-! ## Claim C4: specific volume is exactly the reciprocal of density -/

/-- C4: for every (T, S, P) valid for both functions (T in [0,180] °C,
S in [0,150] g/kg, P in [Psat(T,S)/1e6, 12] MPa), `SW_Volume T S P`
succeeds and returns exactly `1 / SW_Density T S P`. -/
theorem C4_volume_reciprocal_density (T S P : ℝ) (hT : ¬(T < 0 ∨ T > 180))
    (hS : ¬(S < 0 ∨ S > 150)) (hP : ¬(P < psat_val T S / 1e6 ∨ P > 12)) :
    SW_Density T S P = Except.ok (density_formula T S P (refP0 T S)) ∧
    SW_Volume T S P = Except.ok (1 / density_formula T S P (refP0 T S)) := by
  have hD := SW_Density_ok T S P hT hS hP
  refine ⟨hD, ?_⟩
  unfold SW_Volume
  rw [if_neg hT, if_neg hS, hD]
  rfl

/-- Witness for C4 at (T, S, P) = (25, 35, 0.1). -/
theorem C4_witness :
    SW_Density 25 35 0.1 = Except.ok (density_formula 25 35 0.1 (refP0 25 35)) ∧
    SW_Volume 25 35 0.1 = Except.ok (1 / density_formula 25 35 0.1 (refP0 25 35)) :=
  C4_volume_reciprocal_density 25 35 0.1 (by norm_num) (by norm_num) pressure_guard_25_35_01

/-! ## Claim C5: diffusivity is conductivity over density times heat capacity -/

/-- C5: for every (T, S) in the diffusivity domain whose resolved
reference pressure `refP0 T S` passes the density/heat-capacity pressure
check, every sub-call succeeds and `SW_Diffusivity T S` returns exactly
`SW_Conductivity T S / (SW_Density T S P0 * SW_SpcHeat T S P0)` at
`P0 = refP0 T S`. -/
theorem C5_diffusivity_consistency (T S : ℝ) (hT : ¬(T < 0 ∨ T > 180))
    (hS : ¬(S < 0 ∨ S > 150))
    (hP : ¬(refP0 T S < psat_val T S / 1e6 ∨ refP0 T S > 12)) :
    SW_Conductivity T S = Except.ok (conductivity_val T S) ∧
    SW_Density T S (refP0 T S) = Except.ok (density_formula T S (refP0 T S) (refP0 T S)) ∧
    SW_SpcHeat T S (refP0 T S) = Except.ok (spcheat_formula T S (refP0 T S) (refP0 T S)) ∧
    SW_Diffusivity T S = Except.ok (conductivity_val T S /
      (density_formula T S (refP0 T S) (refP0 T S) *
        spcheat_formula T S (refP0 T S) (refP0 T S))) := by
  have hS' : ¬(S < 0 ∨ S > 160) := range_relax hS (by norm_num) (by norm_num)
  have hK := SW_Conductivity_ok T S hT hS'
  have hD := SW_Density_ok T S (refP0 T S) hT hS hP
  have hC := SW_SpcHeat_ok T S (refP0 T S) hT hS' hP
  refine ⟨hK, hD, hC, ?_⟩
  unfold SW_Diffusivity
  rw [if_neg hT, if_neg hS, resolveP0_ok T S hT hS']
  simp only [ok_bind]
  rw [hD]
  simp only [ok_bind]
  rw [hC]
  simp only [ok_bind]
  rw [hK]
  simp only [ok_bind]
  rfl

/-- Witness for C5 at (T, S) = (25, 35). -/
theorem C5_witness :
    SW_Conductivity 25 35 = Except.ok (conductivity_val 25 35) ∧
    SW_Density 25 35 (refP0 25 35) =
      Except.ok (density_formula 25 35 (refP0 25 35) (refP0 25 35)) ∧
    SW_SpcHeat 25 35 (refP0 25 35) =
      Except.ok (spcheat_formula 25 35 (refP0 25 35) (refP0 25 35)) ∧
    SW_Diffusivity 25 35 = Except.ok (conductivity_val 25 35 /
      (density_formula 25 35 (refP0 25 35) (refP0 25 35) *
        spcheat_formula 25 35 (refP0 25 35) (refP0 25 35))) := by
  refine C5_diffusivity_consistency 25 35 (by norm_num) (by norm_num) ?_
  rw [refP0_low 35 (by norm_num : (25 : ℝ) < 100)]
  exact pressure_guard_25_35

/-! ## Claim C6: Gibbs energy at zero salinity -/

/-- C6: `SW_Gibbs 50 0 0.101325` does not fail (the `log S` branch is
skipped at `S = 0`) and equals the pure-water Gibbs polynomial at
`T = 50` alone, with no salinity contribution and zero
pressure-correction contribution. -/
theorem C6_gibbs_zero_salinity :
    SW_Gibbs 50 0 0.101325 =
      Except.ok (1.0677e2 + (-1.4303) * 50 + (-7.6139) * 50 ^ 2 +
        8.3627e-3 * 50 ^ 3 + (-7.8754e-6) * 50 ^ 4) := by
  rw [SW_Gibbs_ok 50 0 0.101325 (by norm_num) (by norm_num) pressure_guard_50_0]
  congr 1
  rw [refP0_low 0 (by norm_num : (50 : ℝ) < 100)]
  simp only [gibbs_formula]
  rw [if_neg (by norm_num : ¬((0 : ℝ) > 0))]
  ring

/-! ## Claim C7: osmotic coefficient anchor-point consistency -/

/-- The Pitzer-Bronsted form with `lambda` chosen from the anchor value
collapses back to the anchor value when evaluated at the anchor
molality. -/
theorem pitzer_anchor (Phi beta m s : ℝ) (hm : m ≠ 0) :
    1 - beta * s + (Phi + beta * s - 1) / m * m = Phi := by
  field_simp

/-- C7: for every T in the osmotic-coefficient temperature range,
`SW_OsmCoeff T 10` - computed through the `S ≤ 10` Pitzer-Bronsted
branch - equals exactly the direct polynomial branch value at `S = 10`. -/
theorem C7_osmcoeff_anchor (T : ℝ) (hT : ¬(T < 0 ∨ T > 120)) :
    SW_OsmCoeff T 10 = Except.ok (osm_poly T 10) := by
  unfold SW_OsmCoeff
  rw [if_neg hT, if_neg (show ¬((10 : ℝ) < 0 ∨ (10 : ℝ) > 120) by norm_num)]
  congr 1
  simp only [osmcoeff_val]
  rw [if_pos (by norm_num : (10 : ℝ) ≤ 10)]
  exact pitzer_anchor (osm_poly T 10) _ _ _ (by norm_num)

/-- Witness for C7 at T = 25. -/
theorem C7_witness : SW_OsmCoeff 25 10 = Except.ok (osm_poly 25 10) :=
  C7_osmcoeff_anchor 25 (by norm_num)

/-! ## Claim C9: Psat salinity violation propagates unchanged through SW_SpcHeat -/

/-- C9: for every T in [0,180], S with 160 < S ≤ 180 and any P,
`SW_SpcHeat T S P` fails with exactly the salinity domain error of
`SW_Psat` (its 0-160 g/kg bound), identical to the result of calling
`SW_Psat T S` directly - no wrapping or re-contextualization. -/
theorem C9_psat_error_propagation (T S P : ℝ) (hT : ¬(T < 0 ∨ T > 180))
    (h160 : S > 160) (h180 : S ≤ 180) :
    SW_SpcHeat T S P = SW_Psat T S ∧
    SW_SpcHeat T S P = Except.error
      (.domain "Salinity is out of range for vapor pressure function 0 < S < 160 g/kg") := by
  have hS : ¬(S < 0 ∨ S > 180) := by
    push_neg
    exact ⟨by linarith, h180⟩
  have hE := SW_Psat_highS T S hT h160
  have h1 : SW_SpcHeat T S P = Except.error
      (.domain "Salinity is out of range for vapor pressure function 0 < S < 160 g/kg") := by
    unfold SW_SpcHeat
    rw [if_neg hT, if_neg hS, hE]
    rfl
  exact ⟨h1.trans hE.symm, h1⟩

/-- Witness for C9 at (T, S, P) = (25, 170, 0.1). -/
theorem C9_witness :
    SW_SpcHeat 25 170 0.1 = SW_Psat 25 170 ∧
    SW_SpcHeat 25 170 0.1 = Except.error
      (.domain "Salinity is out of range for vapor pressure function 0 < S < 160 g/kg") :=
  C9_psat_error_propagation 25 170 0.1 (by norm_num) (by norm_num) (by norm_num)

/-! ## Claim C10: the combined elevated-pressure bound of SW_ChemPot_w -/

/-- C10: for every in-range (T, S, P) of `SW_ChemPot_w` with
`P > refP0 T S`, if `S > 42` or `T > 40` then the function fails with
the combined-bound domain error instead of returning a value. -/
theorem C10_chempot_w_combined_bound (T S P : ℝ) (hT : ¬(T < 10 ∨ T > 80))
    (hS : ¬(S < 0 ∨ S > 120)) (hP : ¬(P < psat_val T S / 1e6 ∨ P > 12))
    (hPP0 : P > refP0 T S) (hTS : S > 42 ∨ T > 40) :
    SW_ChemPot_w T S P = Except.error
      (.domain "Salinity is out of range for the chemical potential of water function 10 < T < 40 C; 0 < S < 42 g/kg; P_sat < P < 12 MPa") := by
  have hT' : ¬(T < 0 ∨ T > 180) := range_relax hT (by norm_num) (by norm_num)
  have hS' : ¬(S < 0 ∨ S > 160) := range_relax hS (by norm_num) (by norm_num)
  unfold SW_ChemPot_w
  rw [if_neg hT, if_neg hS, SW_Psat_ok T S hT' hS', resolveP0_ok T S hT' hS']
  simp only [ok_bind, map_ok]
  rw [if_neg hP, if_pos ⟨hPP0, hTS⟩]

/-- Witness for C10 at (T, S, P) = (50, 35, 0.2): inside the documented
ranges, above the reference pressure, with T > 40. -/
theorem C10_witness :
    SW_ChemPot_w 50 35 0.2 = Except.error
      (.domain "Salinity is out of range for the chemical potential of water function 10 < T < 40 C; 0 < S < 42 g/kg; P_sat < P < 12 MPa") := by
  refine C10_chempot_w_combined_bound 50 35 0.2 (by norm_num) (by norm_num)
    pressure_guard_50_35 ?_ (Or.inr (by norm_num))
  rw [refP0_low 35 (by norm_num : (50 : ℝ) < 100)]
  norm_num

/-! ## Claim C8: the shared reference-pressure rule -/

theorem kviscosityP0_ok (T S : ℝ) (hT : ¬(T < 0 ∨ T > 180)) (hS : ¬(S < 0 ∨ S > 160)) :
    kviscosityP0 T S = Except.ok (refP0 T S) := by
  unfold kviscosityP0 refP0
  by_cases h : T < 100
  · rw [if_neg (not_le.mpr h), if_pos h]
    rfl
  · rw [if_pos (not_lt.mp h), if_neg h, SW_Psat_ok T S hT hS, map_ok]

theorem osmPressP0_ok (T : ℝ) (hT : ¬(T < 0 ∨ T > 180)) :
    osmPressP0 T = Except.ok (refP0 T 0) := by
  unfold osmPressP0 refP0
  by_cases h : T < 100
  · rw [if_pos h, if_pos h]
    rfl
  · rw [if_neg h, if_neg h,
      SW_Psat_ok T 0 hT (by norm_num), map_ok]

/-- C8 (amended): density, enthalpy, entropy, Gibbs energy, heat capacity
and isobaric expansivity all evaluate their bodies at the reference
pressure `refP0 T S` (0.101325 MPa for T < 100 °C, else Psat(T,S)/1e6);
every inline `T < 100` resolution site (`resolveP0`, and `kviscosityP0`
with the inverted conditional) resolves to `refP0 T S`; the one
exception is `SW_OsmPress`, whose resolution site takes the saturation
pressure at salinity 0, i.e. resolves to `refP0 T 0`, not `refP0 T S`. -/
theorem C8_reference_pressure_rule :
    (∀ T S P : ℝ, ¬(T < 0 ∨ T > 180) → ¬(S < 0 ∨ S > 150) →
      ¬(P < psat_val T S / 1e6 ∨ P > 12) →
      SW_Density T S P = Except.ok (density_formula T S P (refP0 T S))) ∧
    (∀ T S P : ℝ, ¬(T < 10 ∨ T > 120) → ¬(S < 0 ∨ S > 120) →
      ¬(P < psat_val T S / 1e6 ∨ P > 12) →
      SW_Enthalpy T S P = Except.ok (enthalpy_formula T S P (refP0 T S))) ∧
    (∀ T S P : ℝ, ¬(T < 10 ∨ T > 120) → ¬(S < 0 ∨ S > 120) →
      ¬(P < psat_val T S / 1e6 ∨ P > 12) →
      SW_Entropy T S P = Except.ok (entropy_formula T S P (refP0 T S))) ∧
    (∀ T S P : ℝ, ¬(T < 10 ∨ T > 120) → ¬(S < 0 ∨ S > 120) →
      ¬(P < psat_val T S / 1e6 ∨ P > 12) →
      SW_Gibbs T S P = Except.ok (gibbs_formula T S P (refP0 T S))) ∧
    (∀ T S P : ℝ, ¬(T < 0 ∨ T > 180) → ¬(S < 0 ∨ S > 160) →
      ¬(P < psat_val T S / 1e6 ∨ P > 12) →
      SW_SpcHeat T S P = Except.ok (spcheat_formula T S P (refP0 T S))) ∧
    (∀ T S P : ℝ, ¬(T < 0 ∨ T > 180) → ¬(S < 0 ∨ S > 150) →
      ¬(P < psat_val T S / 1e6 ∨ P > 12) →
      SW_IsobExp T S P = Except.ok (isobexp_formula T S P (refP0 T S))) ∧
    (∀ T S : ℝ, ¬(T < 0 ∨ T > 180) → ¬(S < 0 ∨ S > 160) →
      resolveP0 T S = Except.ok (refP0 T S)) ∧
    (∀ T S : ℝ, ¬(T < 0 ∨ T > 180) → ¬(S < 0 ∨ S > 160) →
      kviscosityP0 T S = Except.ok (refP0 T S)) ∧
    (∀ T : ℝ, ¬(T < 0 ∨ T > 180) → osmPressP0 T = Except.ok (refP0 T 0)) :=
  ⟨SW_Density_ok, SW_Enthalpy_ok, SW_Entropy_ok, SW_Gibbs_ok, SW_SpcHeat_ok,
    SW_IsobExp_ok, resolveP0_ok, kviscosityP0_ok, osmPressP0_ok⟩

/-- C8 counterexample: at (T, S) = (110, 35), the reference-pressure
resolution site of `SW_OsmPress` (source line 860) resolves to
`psat_val 110 0 / 1e6`, which differs from the claimed rule value
`refP0 110 35 = psat_val 110 35 / 1e6`: the salinity-correction factor
`exp(b1*35 + b2*35^2)` is not 1. -/
theorem C8_counterexample :
    osmPressP0 110 = Except.ok (psat_val 110 0 / 1e6) ∧
    psat_val 110 0 / 1e6 ≠ refP0 110 35 := by
  constructor
  · unfold osmPressP0
    rw [if_neg (by norm_num : ¬((110 : ℝ) < 100)),
      SW_Psat_ok 110 0 (by norm_num) (by norm_num), map_ok]
  · unfold refP0
    rw [if_neg (by norm_num : ¬((110 : ℝ) < 100))]
    intro h
    have h1 : psat_val 110 0 = psat_val 110 35 := by linarith
    simp only [psat_val] at h1
    have h2 := mul_left_cancel₀ (Real.exp_ne_zero _) h1
    rw [Real.exp_eq_exp] at h2
    norm_num at h2

/-! ## Evaluation of SW_FlowExergy at the default dead state -/

/-- Whenever the dead-state salinity argument resolves to 35, the call
`SW_FlowExergy 25 35 0.101325 (some 25) S0o (some 0.101325)` passes all
domain checks, evaluates its enthalpy, entropy and water-chemical-potential
sub-calls successfully, and then fails on the undefined identifier
`SW_SChemPot_s` (source line 494). -/
theorem flowExergy_undefined_eval (S0o : Option ℝ) (h : jsOr S0o 35 = 35) :
    SW_FlowExergy 25 35 0.101325 (some 25) S0o (some 0.101325) =
      Except.error (.undefinedFn "SW_SChemPot_s") := by
  have g1 : ¬((25 : ℝ) < 10 ∨ (25 : ℝ) > 80) := by norm_num
  have g2 : ¬((35 : ℝ) < 0 ∨ (35 : ℝ) > 120) := by norm_num
  have g3 := pressure_guard_25_35
  have g4 : ¬((35 : ℝ) < 0.1) := by norm_num
  have j1 : jsOr (some (25 : ℝ)) 25 = 25 := by simp [jsOr]
  have j3 : jsOr (some (0.101325 : ℝ)) 0.101325 = 0.101325 := by simp [jsOr]
  have e1 := SW_Psat_ok 25 35 (by norm_num) (by norm_num)
  have e2 := SW_Enthalpy_ok 25 35 0.101325 (by norm_num) g2 g3
  have e3 := SW_Entropy_ok 25 35 0.101325 (by norm_num) g2 g3
  have hC : ¬((0.101325 : ℝ) > refP0 25 35 ∧ ((35 : ℝ) > 42 ∨ (25 : ℝ) > 40)) := by
    rw [refP0_low 35 (by norm_num : (25 : ℝ) < 100)]
    norm_num
  have e4 := SW_ChemPot_w_ok 25 35 0.101325 g1 g2 g3 hC
  unfold SW_FlowExergy
  rw [if_neg g1, if_neg g2, e1, map_ok]
  simp only [ok_bind]
  rw [if_neg g3, h, j1, j3, if_neg g4, e2]
  simp only [ok_bind]
  rw [e3]
  simp only [ok_bind]
  rw [e4]
  simp only [ok_bind]
  rfl

/-! ## Claim C1: flow exergy at its own dead state -/

/-- C1 (code bug): the dead-state self-evaluation
`SW_FlowExergy(25, 35, 0.101325, 25, 35, 0.101325)` does not return ≈ 0;
it passes every domain check, evaluates its enthalpy, entropy and
chemical-potential sub-calls, and then crashes on the undefined
identifier `SW_SChemPot_s` - a ReferenceError, since the module defines
`SW_ChemPot_s` only. -/
theorem C1_flowExergy_dead_state_crashes :
    SW_FlowExergy 25 35 0.101325 (some 25) (some 35) (some 0.101325) =
      Except.error (.undefinedFn "SW_SChemPot_s") :=
  flowExergy_undefined_eval (some 35) (by simp [jsOr])

/-! ## Claim C2: the single-error taxonomy -/

/-- C2 (code bug): a public function can fail with something other than
a domain error: the valid call
`SW_FlowExergy(25, 35, 0.101325, 25, 35, 0.101325)` fails with an error
that is not `Err.domain msg` for any message - it is the ReferenceError
on the undefined identifier `SW_SChemPot_s`. -/
theorem C2_failure_is_not_a_domain_error :
    ∃ e, SW_FlowExergy 25 35 0.101325 (some 25) (some 35) (some 0.101325) =
      Except.error e ∧ ∀ msg, e ≠ Err.domain msg := by
  refine ⟨.undefinedFn "SW_SChemPot_s",
    flowExergy_undefined_eval (some 35) (by simp [jsOr]), ?_⟩
  intro msg hcontra
  exact Err.noConfusion hcontra

/-! ## Claim C3: dead-state defaulting and the S0 domain check -/

/-- C3 (amended): a supplied dead-state salinity with `0 < S0 < 0.1`
raises the dead-state-salinity domain error (first conjunct); an absent
dead-state argument is replaced by the defaults T0 = 25, S0 = 35,
P0 = 0.101325 (second conjunct).  A supplied `S0 = 0` is NOT rejected:
being falsy under the JavaScript `||` idiom it is replaced by the
default 35 (see the counterexample). -/
theorem C3_dead_state_defaults_and_S0_check :
    (∀ (T S P : ℝ) (T0o P0o : Option ℝ) (S0v : ℝ),
      ¬(T < 10 ∨ T > 80) → ¬(S < 0 ∨ S > 120) →
      ¬(P < psat_val T S / 1e6 ∨ P > 12) → 0 < S0v → S0v < 0.1 →
      SW_FlowExergy T S P T0o (some S0v) P0o = Except.error
        (.domain "Reference salinity is out of allowed range for flow exergy function 0.1 < S0 < 120")) ∧
    (∀ T S P : ℝ, SW_FlowExergy T S P none none none =
      SW_FlowExergy T S P (some 25) (some 35) (some 0.101325)) := by
  constructor
  · intro T S P T0o P0o S0v hT hS hP h0 h01
    have hT' : ¬(T < 0 ∨ T > 180) := range_relax hT (by norm_num) (by norm_num)
    have hS' : ¬(S < 0 ∨ S > 160) := range_relax hS (by norm_num) (by norm_num)
    have hj : jsOr (some S0v) 35 = S0v := by simp [jsOr, ne_of_gt h0]
    unfold SW_FlowExergy
    rw [if_neg hT, if_neg hS, SW_Psat_ok T S hT' hS', map_ok]
    simp only [ok_bind]
    rw [if_neg hP, hj, if_pos h01]
  · intro T S P
    simp only [SW_FlowExergy, jsOr, ite_self]

/-- C3 counterexample: with `S0 = 0` supplied, the call does not raise
the dead-state-salinity domain error - the falsy 0 is silently replaced
by the default 35 and execution proceeds (to the `SW_SChemPot_s`
ReferenceError). -/
theorem C3_counterexample :
    SW_FlowExergy 25 35 0.101325 (some 25) (some 0) (some 0.101325) ≠
      Except.error
        (.domain "Reference salinity is out of allowed range for flow exergy function 0.1 < S0 < 120") := by
  rw [flowExergy_undefined_eval (some 0) (by simp [jsOr])]
  intro hcontra
  exact Err.noConfusion (Except.error.inj hcontra)

/-- Witness for C3: the first conjunct instantiated at
(T, S, P, S0) = (25, 35, 0.101325, 0.05). -/
theorem C3_witness :
    SW_FlowExergy 25 35 0.101325 none (some 0.05) none = Except.error
      (.domain "Reference salinity is out of allowed range for flow exergy function 0.1 < S0 < 120") :=
  C3_dead_state_defaults_and_S0_check.1 25 35 0.101325 none none 0.05
    (by norm_num) (by norm_num) pressure_guard_25_35 (by norm_num) (by norm_num)

end Seawater
